import Mathlib

/-!
Shallow embedding of the identity/authorization core of the Aureon
loan-management backend:

- `backend/core/error.py`        : error taxonomy
- `backend/identity/auth.py`     : `AuthenticationAdapter`
  (`authenticate`, `verify_token`, `_verify_password`, `_generate_token`)
- `backend/identity/permission.py` : `PermissionAdapter`
  (`has_permission`, `assert_permission`)
- `Middleware/DataProvider/IdentityProvider/userProvider.py` : `UserProvider`
  (`get_user_by_username`)
- `Middleware/DataProvider/IdentityProvider/permissionProvider.py` :
  `SecurityPermissionProvider` (`get_permission_by_code`, `user_has_permission`)

Database sessions are modelled as in-memory lists of rows; `session.exec(stmt).first()`
becomes `List.find?`.  The external libraries (bcrypt, PyJWT HMAC, `uuid.UUID`)
are modelled at their observable interface: `bcrypt.checkpw` is an arbitrary
function that may fail (raise), the JWT MAC is an arbitrary function of the
secret and payload, and `uuid.UUID(str)` parsing is translated from CPython's
`uuid.py` hex-string path.
-/

namespace Aureon

/-- Error taxonomy from `backend/core/error.py`.  `NotFoundError.__init__`
formats its message from the entity name and identifier; the other classes
carry the message passed at raise time. -/
inductive AppError where
  | notFound (entity : String) (identifier : String)
  | authenticationError (msg : String)
  | authorizationError (msg : String)
  | valueError (msg : String)
  deriving Repr, DecidableEq

/-- The `str()` of each exception, as produced by `backend/core/error.py`
(`NotFoundError` builds `f"{entity} with identifier \x27{identifier}\x27 not found"`). -/
def AppError.message : AppError → String
  | .notFound e i => e ++ " with identifier \x27" ++ i ++ "\x27 not found"
  | .authenticationError m => m
  | .authorizationError m => m
  | .valueError m => m

/-- Bool test for the `ValueError` constructor (used to state that a call
surfaces Python's `ValueError` from `uuid.UUID`). -/
def AppError.isValueError : AppError → Bool
  | .valueError _ => true
  | _ => false

/-- Bool test for an `Except` result being a `ValueError`. -/
def resultIsValueError {α : Type} : Except AppError α → Bool
  | .error e => e.isValueError
  | .ok _ => false

/-! ## Token model (`AuthenticationAdapter._generate_token` / `verify_token`) -/

/-- JWT payload built by `_generate_token` (auth.py lines 215-220): exactly the
four claims `user_id`, `username`, `iat`, `exp`.  Timestamps are integer epoch
seconds (`int(now.timestamp())`). -/
structure TokenPayload where
  user_id : String
  username : String
  iat : Nat
  exp : Nat
  deriving Repr, DecidableEq

/-- A signed JWT: payload plus an HMAC-SHA256 signature over it.  The MAC is
external library code, so it is a parameter `mac : String → TokenPayload → Nat`
wherever tokens are produced or checked; a token's signature is valid for a
given secret exactly when `sig = mac secret payload`. -/
structure Token where
  payload : TokenPayload
  sig : Nat
  deriving Repr, DecidableEq

/-- The PyJWT exceptions that `jwt.decode` can raise on a structurally intact
token: `ExpiredSignatureError` (a subclass of `InvalidTokenError`, caught first
in verify_token) and the other `InvalidTokenError`s, here signature mismatch. -/
inductive JwtError where
  | expiredSignature
  | invalidSignature
  deriving Repr, DecidableEq

/-- Models `jwt.decode(token, secret, algorithms=["HS256"])`: PyJWT verifies
the signature first, then validates the `exp` claim against the current time
(`exp <= now` is expired, leeway 0). -/
def jwtDecode (mac : String → TokenPayload → Nat) (secret : String) (now : Nat)
    (t : Token) : Except JwtError TokenPayload :=
  if t.sig ≠ mac secret t.payload then
    .error .invalidSignature
  else if t.payload.exp ≤ now then
    .error .expiredSignature
  else
    .ok t.payload

/-- `AuthenticationAdapter.verify_token` (auth.py lines 128-163): decode, and
translate `ExpiredSignatureError` / `InvalidTokenError` into
`AuthenticationError` domain errors.  PyJWT's `InvalidSignatureError` stringifies
as "Signature verification failed". -/
def verify_token (mac : String → TokenPayload → Nat) (secret : String) (now : Nat)
    (t : Token) : Except AppError TokenPayload :=
  match jwtDecode mac secret now t with
  | .ok payload => .ok payload
  | .error .expiredSignature => .error (.authenticationError "Token has expired")
  | .error .invalidSignature =>
      .error (.authenticationError ("Invalid token: " ++ "Signature verification failed"))

/-- Default of the `token_expiry_hours` parameter of
`AuthenticationAdapter.__init__` (auth.py line 72). -/
def defaultTokenExpiryHours : Nat := 24

/-- `AuthenticationAdapter._generate_token` (auth.py lines 194-223):
`now = datetime.utcnow()`, `expiry = now + timedelta(hours=token_expiry_hours)`,
payload `{user_id, username, iat: int(now.timestamp()), exp: int(expiry.timestamp())}`,
then `jwt.encode` signs it.  Since `3600 * h` is an integer number of seconds,
`int(expiry.timestamp()) = int(now.timestamp()) + 3600 * h` exactly. -/
def generate_token (mac : String → TokenPayload → Nat) (secret : String)
    (token_expiry_hours : Nat) (now : Nat) (user_id username : String) : Token :=
  let payload : TokenPayload :=
    { user_id := user_id, username := username, iat := now, exp := now + 3600 * token_expiry_hours }
  { payload := payload, sig := mac secret payload }

/-! ## Password verifier (`AuthenticationAdapter._verify_password`) -/

/-- `AuthenticationAdapter._verify_password` (auth.py lines 168-192):
`bcrypt.checkpw` is external code that either returns a Bool or raises
(e.g. `ValueError: Invalid salt` on a malformed hash); it is passed in as
`checkpw`.  The adapter wraps it in `try/except Exception: return False`. -/
def verify_password (checkpw : String → String → Except String Bool)
    (password password_hash : String) : Bool :=
  match checkpw password password_hash with
  | .ok b => b
  | .error _ => false

/-! ## User store (`UserProvider`) -/

/-- Row of the `User` table (`database/model/AuthModel/user.py`); only the
columns read by the authentication flow are modelled.  The UUID primary key is
modelled as its 128-bit integer value. -/
structure User where
  id : Nat
  username : String
  hashed_password : String
  deriving Repr, DecidableEq

/-- Contents of the `User` table; `select(User).where(User.username == u)` with
`.first()` becomes `List.find?`. -/
structure UserStore where
  users : List User
  deriving Repr

/-- `UserProvider.get_user_by_username` (userProvider.py lines 63-77).  Despite
its `Optional[User]` docstring it never returns `None`: on a lookup miss it
raises `NotFoundError("User", username)`. -/
def get_user_by_username (store : UserStore) (username : String) : Except AppError User :=
  match store.users.find? (fun u => u.username == username) with
  | some u => .ok u
  | none => .error (.notFound "User" username)

/-- Python truthiness of an ORM `User` instance: the class defines neither
`__bool__` nor `__len__`, so `not user` is always `False` once the provider has
returned (the provider raises instead of returning `None`). -/
def pyTruthyUser (_ : User) : Bool := true

/-- `AuthenticationAdapter.authenticate` (auth.py lines 93-126): fetch the user
by username (a `NotFoundError` from the provider propagates out of this bind),
run the dead `if not user` guard, verify the password, and mint a token from
`str(user.id)` and `user.username`. -/
def authenticate (checkpw : String → String → Except String Bool)
    (mac : String → TokenPayload → Nat) (store : UserStore) (secret : String)
    (token_expiry_hours : Nat) (now : Nat) (username password : String) :
    Except AppError Token := do
  let user ← get_user_by_username store username
  if ! pyTruthyUser user then
    throw (.authenticationError "Invalid username or password")
  if ! verify_password checkpw password user.hashed_password then
    throw (.authenticationError "Invalid username or password")
  pure (generate_token mac secret token_expiry_hours now (toString user.id) user.username)

/-! ## Security permission store (`SecurityPermissionProvider`) -/

/-- Row of the `SecurityUser` table (`database/model/security/user.py`); the
permission flow reads only `id` and the nullable `role_id`. -/
structure SecurityUser where
  id : Nat
  role_id : Option Nat
  deriving Repr, DecidableEq

/-- Row of the `SecurityPermission` table
(`database/model/security/permission.py`); `code` is the unique
machine-readable permission code. -/
structure SecurityPermission where
  id : Nat
  code : String
  deriving Repr, DecidableEq

/-- Row of the `RolePermission` join table linking one role to one permission. -/
structure RolePermission where
  role_id : Nat
  permission_id : Nat
  deriving Repr, DecidableEq

/-- Contents of the three security tables queried by
`SecurityPermissionProvider`. -/
structure SecurityStore where
  security_users : List SecurityUser
  permissions : List SecurityPermission
  role_permissions : List RolePermission
  deriving Repr

/-- `SecurityPermissionProvider.get_permission_by_code` (permissionProvider.py
lines 31-50): `select(SecurityPermission).where(code == code)`, `first()`;
raises `NotFoundError("Permission", code)` on a miss. -/
def get_permission_by_code (store : SecurityStore) (code : String) :
    Except AppError SecurityPermission :=
  match store.permissions.find? (fun p => p.code == code) with
  | some p => .ok p
  | none => .error (.notFound "Permission" code)

/-- `SecurityPermissionProvider.user_has_permission` (permissionProvider.py
lines 100-130).  Step 1 selects the single column `SecurityUser.role_id` for
the user row: `.first()` yields `None` both when no row matches and when the
row's `role_id` is NULL, i.e. `(find?).bind role_id`; `uuid.UUID` has no
`__bool__`, so `if not role_id` tests exactly for `None`.  Step 2 resolves the
permission code, catching `NotFoundError` and failing closed.  Step 3 is
`bool(first())` on the matching `RolePermission` row. -/
def user_has_permission (store : SecurityStore) (user_id : Nat)
    (permission_code : String) : Bool :=
  match (store.security_users.find? (fun u => u.id == user_id)).bind (fun u => u.role_id) with
  | none => false
  | some rid =>
      match get_permission_by_code store permission_code with
      | .error _ => false
      | .ok permission =>
          (store.role_permissions.find? (fun rp =>
              rp.role_id == rid && rp.permission_id == permission.id)).isSome

/-! ## Python `uuid.UUID(str)` parsing (CPython `uuid.py`, hex-string path) -/

/-- Bool test for the two brace characters stripped by
`hex.strip(curly-braces)` in `uuid.UUID.__init__`. -/
def isBraceChar (c : Char) : Bool := c == '\x7b' || c == '\x7d'

/-- Python `str.strip(chars)`: drop characters of the set from both ends. -/
def stripBraces (s : String) : String :=
  String.mk (((s.data.dropWhile isBraceChar).reverse.dropWhile isBraceChar).reverse)

/-- Fuel-indexed worker for Python `str.replace`: scan left to right, replacing
each non-overlapping occurrence of `pat`.  Structural in the fuel so the kernel
can evaluate it; fuel equal to the input length suffices for nonempty `pat`. -/
def replaceFuel (pat rep : List Char) : Nat → List Char → List Char
  | _, [] => []
  | 0, l => l
  | fuel + 1, c :: cs =>
      if pat ≠ [] ∧ pat.isPrefixOf (c :: cs) then
        rep ++ replaceFuel pat rep fuel (List.drop (pat.length - 1) cs)
      else
        c :: replaceFuel pat rep fuel cs

/-- Python `str.replace(pat, rep)` for nonempty `pat`. -/
def strReplace (s pat rep : String) : String :=
  String.mk (replaceFuel pat.data rep.data s.data.length s.data)

/-- Bool test for a hexadecimal digit as accepted by `int(s, 16)`. -/
def isHexDigitChar (c : Char) : Bool :=
  c.isDigit || ('a' ≤ c && c ≤ 'f') || ('A' ≤ c && c ≤ 'F')

/-- Numeric value of a hex digit. -/
def hexVal (c : Char) : Nat :=
  if c.isDigit then c.toNat - '0'.toNat
  else if 'a' ≤ c && c ≤ 'f' then c.toNat - 'a'.toNat + 10
  else c.toNat - 'A'.toNat + 10

/-- `uuid.UUID(user_id)` on a string argument (CPython `uuid.py`): strip every
occurrence of `urn:` and `uuid:`, strip surrounding braces, remove dashes,
require exactly 32 characters, then `int(hex, 16)`.  Returns the 128-bit value,
or `none` where the constructor raises `ValueError`.  (`int(s, 16)`
additionally tolerates underscore separators and surrounding whitespace inside
the 32 characters; no claim depends on those corner forms, and they are not
modelled.) -/
def pyUUID (s : String) : Option Nat :=
  let hex := strReplace (strReplace s "urn:" "") "uuid:" ""
  let hex := strReplace (stripBraces hex) "-" ""
  if hex.length ≠ 32 then none
  else if hex.data.all isHexDigitChar then
    some (hex.data.foldl (fun acc c => acc * 16 + hexVal c) 0)
  else none

/-! ## Permission adapter (`PermissionAdapter`) -/

/-- `PermissionAdapter.has_permission` (permission.py lines 75-86):
`self.provider.user_has_permission(UUID(user_id), permission)`.  `UUID(user_id)`
raises `ValueError` on a malformed id, which propagates to the caller. -/
def has_permission (store : SecurityStore) (user_id permission : String) :
    Except AppError Bool :=
  match pyUUID user_id with
  | none => .error (.valueError "badly formed hexadecimal UUID string")
  | some uid => .ok (user_has_permission store uid permission)

/-- `PermissionAdapter.assert_permission` (permission.py lines 88-102): calls
`has_permission` (whose `ValueError` propagates) and raises
`AuthorizationError(f"User \x27{user_id}\x27 lacks required permission
\x27{permission}\x27")` when it returns `False`. -/
def assert_permission (store : SecurityStore) (user_id permission : String) :
    Except AppError Unit :=
  match has_permission store user_id permission with
  | .error e => .error e
  | .ok true => .ok ()
  | .ok false =>
      .error (.authorizationError
        ("User \x27" ++ user_id ++ "\x27 lacks required permission \x27" ++ permission ++ "\x27"))

/-! ## Concrete fixtures (used by witness theorems and counterexample evaluations) -/

/-- Concrete stand-in for the external HMAC function in witnesses. -/
def macTest (secret : String) (p : TokenPayload) : Nat :=
  secret.length * 131 + p.user_id.length * 31 + p.username.length * 37
    + p.iat * 41 + p.exp * 43

/-- Test double for `bcrypt.checkpw` that never raises and matches exactly when
the plaintext equals the stored string. -/
def checkpwEq (password password_hash : String) : Except String Bool :=
  .ok (password == password_hash)

/-- Test double for `bcrypt.checkpw` hitting a malformed hash: it raises
(`ValueError: Invalid salt`). -/
def checkpwRaise (_ _ : String) : Except String Bool :=
  .error "Invalid salt"

/-- A user row for the authentication fixtures. -/
def userAlice : User := { id := 1, username := "alice", hashed_password := "pw-alice" }

/-- User table containing only `userAlice`. -/
def userStoreAlice : UserStore := { users := [userAlice] }

/-- Empty user table. -/
def emptyUserStore : UserStore := { users := [] }

/-- String form of the UUID with value 1. -/
def uuid1 : String := "00000000-0000-0000-0000-000000000001"

/-- String form of the UUID with value 2. -/
def uuid2 : String := "00000000-0000-0000-0000-000000000002"

/-- Security store where user 1 exists but has `role_id` NULL. -/
def secStoreNoRole : SecurityStore :=
  { security_users := [{ id := 1, role_id := none }],
    permissions := [{ id := 10, code := "ledger.view" }],
    role_permissions := [{ role_id := 5, permission_id := 10 }] }

/-- Security store where user 1 has role 5 which grants `ledger.view`. -/
def secStoreWithRole : SecurityStore :=
  { security_users := [{ id := 1, role_id := some 5 }],
    permissions := [{ id := 10, code := "ledger.view" }],
    role_permissions := [{ role_id := 5, permission_id := 10 }] }

/-- Security store with all three tables empty. -/
def emptySecStore : SecurityStore :=
  { security_users := [], permissions := [], role_permissions := [] }

/-- An old payload: issued at 1, expired at 50. -/
def payloadOld : TokenPayload := { user_id := "u1", username := "alice", iat := 1, exp := 50 }

/-- A token over `payloadOld` whose signature is valid for `"server-secret"`. -/
def tokenOld : Token := { payload := payloadOld, sig := macTest "server-secret" payloadOld }

/-! ## Helper lemmas shared by the claim theorems -/

/-- Helper: `has_permission` can only fail with the `ValueError` raised by
`uuid.UUID` on a malformed id; no other error escapes it. -/
theorem has_permission_error_shape (store : SecurityStore) (user_id permission : String)
    (e : AppError) (h : has_permission store user_id permission = .error e) :
    e = .valueError "badly formed hexadecimal UUID string" := by
  unfold has_permission at h
  cases hp : pyUUID user_id with
  | none => rw [hp] at h; exact (Except.error.inj h).symm
  | some uid => rw [hp] at h; exact absurd h (by simp)

/-! ## Claim theorems -/

/-- Claim C1: the spec requires `authenticate` to raise an AuthenticationError
with the same generic "Invalid username or password" message for a nonexistent
username as for a wrong password.  The code does not: `get_user_by_username`
raises `NotFoundError("User", username)` instead of returning `None` (contrary
to its own `Optional[User]` docstring), so `authenticate`'s `if not user` guard
is dead and a nonexistent username surfaces a `NotFoundError` whose type and
message (which embeds the attempted username) differ from the wrong-password
`AuthenticationError` — username enumeration is possible.  This theorem
evaluates both paths at concrete inputs and shows the two errors differ in
constructor and in message. -/
theorem C1_username_enumeration_code_bug :
    authenticate checkpwEq macTest emptyUserStore "server-secret" 24 1000 "ghost" "pw"
      = .error (.notFound "User" "ghost")
  ∧ authenticate checkpwEq macTest userStoreAlice "server-secret" 24 1000 "alice" "wrong"
      = .error (.authenticationError "Invalid username or password")
  ∧ AppError.notFound "User" "ghost" ≠ AppError.authenticationError "Invalid username or password"
  ∧ (AppError.notFound "User" "ghost").message
      ≠ (AppError.authenticationError "Invalid username or password").message :=
  ⟨rfl, rfl, by decide, by decide⟩

/-- Claim C2: a token whose embedded `exp` is strictly in the past at
verification time is rejected by `verify_token` with an AuthenticationError,
even when its signature is valid for the server secret. -/
theorem C2_expired_token_rejected (mac : String → TokenPayload → Nat)
    (secret : String) (now : Nat) (t : Token)
    (hexp : t.payload.exp < now) (hsig : t.sig = mac secret t.payload) :
    verify_token mac secret now t = .error (.authenticationError "Token has expired") := by
  unfold verify_token jwtDecode
  simp [hsig, Nat.le_of_lt hexp]

/-- Witness for C2: a concrete expired token with a valid signature. -/
theorem C2_expired_token_rejected_witness :
    tokenOld.payload.exp < 1000
  ∧ tokenOld.sig = macTest "server-secret" tokenOld.payload
  ∧ verify_token macTest "server-secret" 1000 tokenOld
      = .error (.authenticationError "Token has expired") :=
  ⟨by decide, rfl, C2_expired_token_rejected macTest "server-secret" 1000 tokenOld (by decide) rfl⟩

/-- Claim C3: verifying a token immediately after it was issued for
`(user_id, username)` succeeds, and the returned claims carry exactly that id
and username (with `iat = now` and `exp = now + 3600 * lifetime`), for any
positive configured lifetime in hours. -/
theorem C3_issue_verify_roundtrip (mac : String → TokenPayload → Nat)
    (secret : String) (now token_expiry_hours : Nat) (user_id username : String)
    (hpos : 0 < token_expiry_hours) :
    verify_token mac secret now (generate_token mac secret token_expiry_hours now user_id username)
      = .ok { user_id := user_id, username := username, iat := now,
              exp := now + 3600 * token_expiry_hours } := by
  unfold verify_token jwtDecode generate_token
  have h1 : ¬ (now + 3600 * token_expiry_hours ≤ now) := by
    have h2 : 0 < 3600 * token_expiry_hours := Nat.mul_pos (by norm_num) hpos
    omega
  simp [h1]

/-- Witness for C3 at the default 24-hour lifetime. -/
theorem C3_issue_verify_roundtrip_witness :
    0 < defaultTokenExpiryHours
  ∧ verify_token macTest "server-secret" 1000
      (generate_token macTest "server-secret" defaultTokenExpiryHours 1000 "1" "alice")
      = .ok { user_id := "1", username := "alice", iat := 1000,
              exp := 1000 + 3600 * defaultTokenExpiryHours } :=
  ⟨by decide,
   C3_issue_verify_roundtrip macTest "server-secret" 1000 defaultTokenExpiryHours "1" "alice"
     (by decide)⟩

/-- Claim C4: an identity that exists but has no assigned role (NULL `role_id`)
fails closed — `user_has_permission` is `false` for every permission code, and
the adapter's `has_permission` returns `False` without raising. -/
theorem C4_no_role_fails_closed (store : SecurityStore) (user_id code : String)
    (uid : Nat) (u : SecurityUser)
    (hparse : pyUUID user_id = some uid)
    (hfind : store.security_users.find? (fun x => x.id == uid) = some u)
    (hnorole : u.role_id = none) :
    user_has_permission store uid code = false
  ∧ has_permission store user_id code = .ok false := by
  have h1 : user_has_permission store uid code = false := by
    unfold user_has_permission
    rw [hfind]
    simp [hnorole]
  exact ⟨h1, by simp [has_permission, hparse, h1]⟩

/-- Witness for C4: user 1 exists with NULL role in `secStoreNoRole`. -/
theorem C4_no_role_fails_closed_witness :
    pyUUID uuid1 = some 1
  ∧ secStoreNoRole.security_users.find? (fun x => x.id == 1)
      = some { id := 1, role_id := none }
  ∧ (user_has_permission secStoreNoRole 1 "ledger.view" = false
     ∧ has_permission secStoreNoRole uuid1 "ledger.view" = .ok false) :=
  ⟨by decide, by decide,
   C4_no_role_fails_closed secStoreNoRole uuid1 "ledger.view" 1 { id := 1, role_id := none }
     (by decide) (by decide) rfl⟩

/-- Claim C5: an unknown permission code fails closed for every identity — the
provider catches the `NotFoundError` from `get_permission_by_code` and returns
`False`, and the adapter surfaces `False` rather than the NotFound error. -/
theorem C5_unknown_code_fails_closed (store : SecurityStore) (user_id code : String)
    (uid : Nat)
    (hparse : pyUUID user_id = some uid)
    (hmiss : store.permissions.find? (fun p => p.code == code) = none) :
    user_has_permission store uid code = false
  ∧ has_permission store user_id code = .ok false := by
  have h1 : user_has_permission store uid code = false := by
    unfold user_has_permission
    cases hrid : (store.security_users.find? (fun u => u.id == uid)).bind (fun u => u.role_id) with
    | none => rfl
    | some rid => simp [get_permission_by_code, hmiss]
  exact ⟨h1, by simp [has_permission, hparse, h1]⟩

/-- Witness for C5: user 1 has a role, but `ledger.edit` is not a permission
code in the store. -/
theorem C5_unknown_code_fails_closed_witness :
    pyUUID uuid1 = some 1
  ∧ secStoreWithRole.permissions.find? (fun p => p.code == "ledger.edit") = none
  ∧ (user_has_permission secStoreWithRole 1 "ledger.edit" = false
     ∧ has_permission secStoreWithRole uuid1 "ledger.edit" = .ok false) :=
  ⟨by decide, by decide,
   C5_unknown_code_fails_closed secStoreWithRole uuid1 "ledger.edit" 1 (by decide) (by decide)⟩

/-- Claim C6: `_verify_password` is total and Bool-valued; whenever the
underlying `bcrypt.checkpw` raises (malformed hash or any internal error), it
returns `false` — indistinguishable from a wrong password for the caller. -/
theorem C6_verify_password_fail_closed (checkpw : String → String → Except String Bool)
    (password password_hash : String) (e : String)
    (herr : checkpw password password_hash = .error e) :
    verify_password checkpw password password_hash = false := by
  unfold verify_password
  rw [herr]

/-- Witness for C6: a `checkpw` that raises `Invalid salt` on a corrupt hash. -/
theorem C6_verify_password_fail_closed_witness :
    checkpwRaise "secret-pw" "not-a-bcrypt-hash" = .error "Invalid salt"
  ∧ verify_password checkpwRaise "secret-pw" "not-a-bcrypt-hash" = false :=
  ⟨rfl,
   C6_verify_password_fail_closed checkpwRaise "secret-pw" "not-a-bcrypt-hash" "Invalid salt" rfl⟩

/-- Claim C7: `assert_permission` returns normally exactly when
`has_permission` returns `True`; when it returns `False`, `assert_permission`
raises an AuthorizationError whose message carries both the identity id and the
permission code. -/
theorem C7_assert_wraps_has (store : SecurityStore) (user_id permission : String) :
    (assert_permission store user_id permission = .ok ()
       ↔ has_permission store user_id permission = .ok true)
  ∧ (assert_permission store user_id permission
       = .error (.authorizationError
           ("User \x27" ++ user_id ++ "\x27 lacks required permission \x27" ++ permission ++ "\x27"))
       ↔ has_permission store user_id permission = .ok false) := by
  unfold assert_permission
  cases h : has_permission store user_id permission with
  | error e =>
      have he := has_permission_error_shape store user_id permission e h
      subst he
      exact ⟨by simp, by simp⟩
  | ok b => cases b <;> simp

/-- Witness for C7 at a concrete store and identity. -/
theorem C7_assert_wraps_has_witness :
    (assert_permission secStoreWithRole uuid1 "ledger.view" = .ok ()
       ↔ has_permission secStoreWithRole uuid1 "ledger.view" = .ok true)
  ∧ (assert_permission secStoreWithRole uuid1 "ledger.view"
       = .error (.authorizationError
           ("User \x27" ++ uuid1 ++ "\x27 lacks required permission \x27" ++ "ledger.view" ++ "\x27"))
       ↔ has_permission secStoreWithRole uuid1 "ledger.view" = .ok false) :=
  C7_assert_wraps_has secStoreWithRole uuid1 "ledger.view"

/-- Claim C8: every issued token's payload is exactly
`{user_id, username, iat, exp}` with `exp = iat + 3600 * token_expiry_hours`,
and the configured lifetime defaults to 24 hours. -/
theorem C8_payload_shape (mac : String → TokenPayload → Nat) (secret : String)
    (token_expiry_hours now : Nat) (user_id username : String) :
    (generate_token mac secret token_expiry_hours now user_id username).payload
      = { user_id := user_id, username := username, iat := now,
          exp := now + 3600 * token_expiry_hours }
  ∧ (generate_token mac secret token_expiry_hours now user_id username).payload.exp
      = (generate_token mac secret token_expiry_hours now user_id username).payload.iat
        + 3600 * token_expiry_hours
  ∧ defaultTokenExpiryHours = 24 :=
  ⟨rfl, rfl, rfl⟩

/-- Claim C9: when `user_id` is not a valid UUID string, both
`PermissionAdapter.has_permission` and `assert_permission` surface the
`ValueError` from `uuid.UUID` instead of returning `False`; the boolean
fail-closed contract only applies to ids that parse. -/
theorem C9_invalid_uuid_raises (store : SecurityStore) (user_id permission : String)
    (hbad : pyUUID user_id = none) :
    resultIsValueError (has_permission store user_id permission) = true
  ∧ resultIsValueError (assert_permission store user_id permission) = true
  ∧ has_permission store user_id permission ≠ .ok false := by
  have h1 : has_permission store user_id permission
      = .error (.valueError "badly formed hexadecimal UUID string") := by
    simp [has_permission, hbad]
  refine ⟨by simp [h1, resultIsValueError, AppError.isValueError], ?_, by simp [h1]⟩
  simp [assert_permission, h1, resultIsValueError, AppError.isValueError]

/-- Witness for C9 at the malformed id string `not-a-uuid`. -/
theorem C9_invalid_uuid_raises_witness :
    pyUUID "not-a-uuid" = none
  ∧ (resultIsValueError (has_permission emptySecStore "not-a-uuid" "ledger.view") = true
     ∧ resultIsValueError (assert_permission emptySecStore "not-a-uuid" "ledger.view") = true
     ∧ has_permission emptySecStore "not-a-uuid" "ledger.view" ≠ .ok false) :=
  ⟨by decide, C9_invalid_uuid_raises emptySecStore "not-a-uuid" "ledger.view" (by decide)⟩

/-- Claim C10: a valid UUID for which no `SecurityUser` row exists fails closed
exactly like an identity with no role: `user_has_permission` returns `false`
and the adapter returns `False` without raising. -/
theorem C10_missing_user_fails_closed (store : SecurityStore) (user_id code : String)
    (uid : Nat)
    (hparse : pyUUID user_id = some uid)
    (hmiss : store.security_users.find? (fun u => u.id == uid) = none) :
    user_has_permission store uid code = false
  ∧ has_permission store user_id code = .ok false := by
  have h1 : user_has_permission store uid code = false := by
    unfold user_has_permission
    rw [hmiss]
    rfl
  exact ⟨h1, by simp [has_permission, hparse, h1]⟩

/-- Witness for C10: UUID 2 parses but no user row with id 2 exists. -/
theorem C10_missing_user_fails_closed_witness :
    pyUUID uuid2 = some 2
  ∧ secStoreWithRole.security_users.find? (fun u => u.id == 2) = none
  ∧ (user_has_permission secStoreWithRole 2 "ledger.view" = false
     ∧ has_permission secStoreWithRole uuid2 "ledger.view" = .ok false) :=
  ⟨by decide, by decide,
   C10_missing_user_fails_closed secStoreWithRole uuid2 "ledger.view" 2 (by decide) (by decide)⟩

end Aureon
